import Mathlib

/-!
Shallow embedding of the Word Duel escrow cloud functions
(WordDuelApp/functions/src/index.ts) and proofs about them.

Conventions of the embedding:
- The Firebase realtime database is passed explicitly: each handler takes the
  current game record (an `Option GameRecord`, `none` when the node is absent)
  and returns both its JSON response and the updated state.
- JavaScript numbers holding SOL amounts are modelled as rationals (`Rat`);
  lamport amounts (smallest unit) are integers (`Int`).  `Math.round` is
  `round` on rationals (both round half up).
- Absent object fields are `Option`; the JavaScript `x || d` fallback, which
  also replaces falsy values (empty string, 0), is modelled explicitly by the
  `jsOr*` helpers.
- `Date.now()` is an explicit `now : Nat` parameter.
- Blockchain transfer submission (`sendPayout`) is modelled as succeeding,
  with `sendSig : String → Int → String` giving the confirmed signature for a
  recipient/amount pair; a transfer whose argument evaluation throws in JS
  (absent player record) is modelled as not being issued, mirroring the
  per-transfer try/catch.
-/

namespace WordDuel

/-! ## Data model (section 3 of the spec; shapes read off index.ts) -/

inductive GameStatus
  | waiting
  | playing
  | finished
  | cancelled
deriving DecidableEq, Repr

inductive EscrowStatus
  | pending_deposits
  | locked
  | paid_out
  | refunded
deriving DecidableEq, Repr

/-- A per-player deposit record written by `updateDepositInFirebase`. -/
structure Deposit where
  txSignature : String
  amount : Int
  currency : String
  confirmedAt : Nat
deriving DecidableEq, Repr

/-- One player slot of a game record. -/
structure PlayerState where
  odid : String
  score : Nat
  wordsFound : List String
  lastActivity : Nat
deriving DecidableEq, Repr

/-- The embedded escrow object.  `status = none` models an absent
escrow node or absent status field. -/
structure EscrowState where
  status : Option EscrowStatus
  player1Deposit : Option Deposit
  player2Deposit : Option Deposit
  payoutTx : Option String
  refundTx : Option String
  player1RefundTx : Option String
  player2RefundTx : Option String
deriving DecidableEq, Repr

/-- One game record under `games/{gameId}`. -/
structure GameRecord where
  status : GameStatus
  letters : List Char
  betAmount : Rat
  betCurrency : Option String
  player1 : Option PlayerState
  player2 : Option PlayerState
  winner : Option String
  forfeitedBy : Option String
  cancelledBy : Option String
  cancelledAt : Option Nat
  endedAt : Option Nat
  escrow : EscrowState
deriving DecidableEq, Repr

/-! ## JavaScript helpers -/

/-- `o || d` for strings: absent and `""` are falsy. -/
def jsOrString (o : Option String) (d : String) : String :=
  match o with
  | none => d
  | some s => if s = "" then d else s

/-- `x || d` for numbers: `0` is falsy. -/
def jsOrRat (x : Rat) (d : Rat) : Rat :=
  if x = 0 then d else x

/-- `game.escrow?.playerNDeposit?.amount || 0`. -/
def depositAmount (d : Option Deposit) : Int :=
  match d with
  | none => 0
  | some dep => dep.amount

/-- `game.playerN?.odid === playerId`. -/
def optIsPlayer (p : Option PlayerState) (playerId : String) : Bool :=
  match p with
  | none => false
  | some player => player.odid == playerId

/-- A JS truthiness test on an optional string: absent and `""` are falsy. -/
def jsStringOpt (o : Option String) : Option String :=
  match o with
  | none => none
  | some s => if s = "" then none else some s

def LAMPORTS_PER_SOL : Int := 1000000000

/-- `s.toUpperCase()`, as a character map (the words in play are ASCII). -/
def jsToUpper (s : String) : String :=
  String.mk (s.data.map Char.toUpper)

/-- `s.toLowerCase()`, as a character map. -/
def jsToLower (s : String) : String :=
  String.mk (s.data.map Char.toLower)

/-- `s.trim()`: drop whitespace from both ends. -/
def jsTrim (s : String) : String :=
  String.mk (((s.data.dropWhile Char.isWhitespace).reverse.dropWhile
    Char.isWhitespace).reverse)

/-! ## Word submission (submitWord and its helpers, index.ts lines 604-749) -/

/-- Length-based score table (`calculateScore`). -/
def calculateScore (word : String) : Nat :=
  let length := word.length
  if length < 3 then 0
  else if length > 8 then 23 + (length - 8) * 6
  else if length = 3 then 3
  else if length = 4 then 5
  else if length = 5 then 8
  else if length = 6 then 12
  else if length = 7 then 17
  else if length = 8 then 23
  else 0

/-- The loop of `canFormWord`: consume each letter of the word against a
mutable copy of the pool (`indexOf` + `splice` = erase first occurrence). -/
def canFormWordGo : List Char → List Char → Bool
  | [], _ => true
  | c :: cs, available =>
    if available.contains c then canFormWordGo cs (available.erase c)
    else false

/-- `canFormWord(word, availableLetters)`: iterate over the characters of
`word.toUpperCase()`. -/
def canFormWord (word : String) (availableLetters : List Char) : Bool :=
  canFormWordGo (jsToUpper word).data availableLetters

structure SubmitWordData where
  gameId : String
  playerId : String
  word : String
deriving DecidableEq, Repr

structure SubmitResult where
  success : Bool
  error : Option String
  word : Option String
  score : Option Nat
deriving DecidableEq, Repr

inductive PlayerKey
  | player1
  | player2
deriving DecidableEq, Repr

def getPlayer (g : GameRecord) : PlayerKey → Option PlayerState
  | .player1 => g.player1
  | .player2 => g.player2

def setPlayer (g : GameRecord) : PlayerKey → Option PlayerState → GameRecord
  | .player1, p => { g with player1 := p }
  | .player2, p => { g with player2 := p }

/-- Resolve the caller to a player slot: `isPlayer1` is checked first, then
`isPlayer2`; `none` when the caller is in neither slot. -/
def findPlayer (game : GameRecord) (playerId : String) : Option (PlayerKey × PlayerState) :=
  if optIsPlayer game.player1 playerId then
    match game.player1 with
    | some p => some (PlayerKey.player1, p)
    | none => none
  else if optIsPlayer game.player2 playerId then
    match game.player2 with
    | some p => some (PlayerKey.player2, p)
    | none => none
  else none

/-- The update function passed to `playerRef.transaction` in `submitWord`:
if the word is already present the record is returned unchanged, otherwise
the word is appended and the score added. -/
def submitWordTxn (now : Nat) (normalizedWord : String) (score : Nat) :
    Option PlayerState → Option PlayerState
  | none => none
  | some currentData =>
    if currentData.wordsFound.contains normalizedWord then some currentData
    else some { currentData with
      score := currentData.score + score,
      wordsFound := currentData.wordsFound ++ [normalizedWord],
      lastActivity := now }

/-- The validation pipeline of `submitWord` (checks 1-4 plus the request
field and game state guards), returning on success the fetched game, the
resolved player slot and record, the normalized word and its score. -/
def submitWordCheck (validWords : List String) (game? : Option GameRecord)
    (data : SubmitWordData) :
    Except String (GameRecord × PlayerKey × PlayerState × String × Nat) :=
  if data.gameId = "" ∨ data.playerId = "" ∨ data.word = "" then
    .error "Missing required fields"
  else
    let normalizedWord := jsTrim (jsToUpper data.word)
    match game? with
    | none => .error "Game not found"
    | some game =>
      if game.status ≠ GameStatus.playing then .error "Game is not in progress"
      else
        match findPlayer game data.playerId with
        | none => .error "Player not in this game"
        | some (playerKey, playerData) =>
          if normalizedWord.length < 3 then .error "Word must be at least 3 letters"
          else if ¬ canFormWord normalizedWord game.letters then
            .error "Word cannot be formed from available letters"
          else if ¬ validWords.contains (jsToLower normalizedWord) then
            .error "Not a valid English word"
          else if playerData.wordsFound.contains normalizedWord then
            .error "Word already submitted"
          else
            .ok (game, playerKey, playerData, normalizedWord, calculateScore normalizedWord)

/-- `submitWord`: validate, then apply the transactional update to the
submitting player.  Returns the response and the updated game node. -/
def submitWord (validWords : List String) (now : Nat) (game? : Option GameRecord)
    (data : SubmitWordData) : SubmitResult × Option GameRecord :=
  match submitWordCheck validWords game? data with
  | .error e => (⟨false, some e, none, none⟩, game?)
  | .ok (game, playerKey, _, w, s) =>
    (⟨true, none, some w, some s⟩,
     some (setPlayer game playerKey (submitWordTxn now w s (getPlayer game playerKey))))

/-! ## Deposit verification (verifyDeposit, index.ts lines 62-274) -/

structure VerifyDepositData where
  gameRoomId : String
  playerId : String
  txSignature : String
  expectedAmount : Option Rat
  currency : String
deriving DecidableEq, Repr

/-- The parts of a fetched Solana transaction that the verifier reads.
Solana metadata has one pre/post balance per account key; the balance lists
are indexed at positions found in `accountKeys`. -/
structure TxInfo where
  accountKeys : List String
  preBalances : List Int
  postBalances : List Int
deriving DecidableEq, Repr

/-- The environment a `verifyDeposit` call runs against: the game node, the
`usedSignatures` store, the chain lookup and the escrow wallet address. -/
structure VerifyEnv where
  game? : Option GameRecord
  usedSigs : List String
  chain : String → Option TxInfo
  escrowAddress : String
  now : Nat

structure VerifyResult where
  success : Bool
  error : Option String
  amountReceived : Option Int
deriving DecidableEq, Repr

/-- Response plus resulting state of a `verifyDeposit` call. -/
structure VerifyOutcome where
  result : VerifyResult
  usedSigs : List String
  game? : Option GameRecord
deriving DecidableEq, Repr

/-- `updateDepositInFirebase`: write the deposit into the matching player
slot, then set the escrow status from a fresh read (`locked` iff both
deposits are now present, else `pending_deposits`). -/
def updateDepositInFirebase (game : GameRecord) (playerId txSignature : String)
    (amount : Int) (currency : String) (now : Nat) : GameRecord :=
  let isPlayer1 := optIsPlayer game.player1 playerId
  let dep : Deposit := ⟨txSignature, amount, currency, now⟩
  let escrow1 :=
    if isPlayer1 then { game.escrow with player1Deposit := some dep }
    else { game.escrow with player2Deposit := some dep }
  let newStatus :=
    if escrow1.player1Deposit.isSome && escrow1.player2Deposit.isSome then
      EscrowStatus.locked
    else EscrowStatus.pending_deposits
  { game with escrow := { escrow1 with status := some newStatus } }

/-- The validation sequence of `verifyDeposit` (security checks 1-6, in
program order), returning on success the fetched game and the amount the
escrow wallet received.  Interpolated numeric fragments of error strings are
elided. -/
def verifyDepositCheck (env : VerifyEnv) (data : VerifyDepositData) :
    Except String (GameRecord × Int) :=
  match env.game? with
  | none => .error "Game not found"
  | some game =>
    if ¬ (optIsPlayer game.player1 data.playerId = true ∨
          optIsPlayer game.player2 data.playerId = true) then
      .error "Player is not part of this game"
    else
      let gameCurrency := jsOrString game.betCurrency "SOL"
      if data.currency ≠ gameCurrency then
        .error ("Game requires " ++ gameCurrency ++ " deposits")
      else
        let gameBetAmount := game.betAmount
        if env.usedSigs.contains data.txSignature then
          .error "Transaction has already been used for a deposit"
        else
          match env.chain data.txSignature with
          | none => .error "Transaction not found on Solana"
          | some txInfo =>
            match txInfo.accountKeys.head? with
            | none =>
              -- accountKeys[0].toString() throws; the outer catch returns the message
              .error "Cannot read properties of undefined"
            | some senderAddress =>
              if senderAddress ≠ data.playerId then
                .error "Transaction sender does not match claimed player"
              else
                match txInfo.accountKeys.findIdx? (fun key => key == env.escrowAddress) with
                | none => .error "Transaction did not include escrow wallet"
                | some escrowIndex =>
                  let amountReceived : Int :=
                    txInfo.postBalances.getD escrowIndex 0 -
                      txInfo.preBalances.getD escrowIndex 0
                  let requiredLamports : Int :=
                    round (gameBetAmount * (LAMPORTS_PER_SOL : Rat))
                  if (amountReceived : Rat) < (requiredLamports : Rat) * (999 / 1000) then
                    .error "Insufficient deposit"
                  else .ok (game, amountReceived)

/-- `verifyDeposit`: every rejection returns the environment state
unchanged; the signature consumption and the deposit write happen only after
all checks pass. -/
def verifyDeposit (env : VerifyEnv) (data : VerifyDepositData) : VerifyOutcome :=
  match verifyDepositCheck env data with
  | .error e => ⟨⟨false, some e, none⟩, env.usedSigs, env.game?⟩
  | .ok (game, amountReceived) =>
    ⟨⟨true, none, some amountReceived⟩,
     data.txSignature :: env.usedSigs,
     some (updateDepositInFirebase game data.playerId data.txSignature
       amountReceived "SOL" env.now)⟩

/-! ## Settlement (processGamePayout, index.ts lines 288-421) -/

/-- One custodial transfer submitted via `sendPayout`. -/
structure Transfer where
  recipient : String
  lamports : Int
deriving DecidableEq, Repr

/-- The escrow node update performed at the end of settlement. -/
inductive EscrowWrite
  | refundWrite (player1RefundTx player2RefundTx : Option String)
  | payoutWrite (payoutTx : String) (winnerPayout : Int)
deriving DecidableEq, Repr

structure PayoutOutcome where
  transfers : List Transfer
  escrowWrite : Option EscrowWrite
deriving DecidableEq, Repr

/-- The body of settlement once the guards passed (escrow is `locked`):
compute the pot, then either refund each player their own deposit (tie) or
send the whole pot to the winner. -/
def settleLocked (sendSig : String → Int → String) (game : GameRecord) : PayoutOutcome :=
  let player1Deposit := depositAmount game.escrow.player1Deposit
  let player2Deposit := depositAmount game.escrow.player2Deposit
  let totalPot := player1Deposit + player2Deposit
  if totalPot = 0 then ⟨[], none⟩
  else
    match jsStringOpt game.winner with
    | none =>
      let refund1 : Option Transfer :=
        if 0 < player1Deposit then
          match game.player1 with
          | some p => some ⟨p.odid, player1Deposit⟩
          | none => none
        else none
      let refund2 : Option Transfer :=
        if 0 < player2Deposit then
          match game.player2 with
          | some p => some ⟨p.odid, player2Deposit⟩
          | none => none
        else none
      ⟨refund1.toList ++ refund2.toList,
       some (.refundWrite (refund1.map fun t => sendSig t.recipient t.lamports)
         (refund2.map fun t => sendSig t.recipient t.lamports))⟩
    | some winner =>
      ⟨[⟨winner, totalPot⟩], some (.payoutWrite (sendSig winner totalPot) totalPot)⟩

/-- `processGamePayout`: the status-change trigger plus the idempotence
guards on the escrow status, then `settleLocked`. -/
def processGamePayout (sendSig : String → Int → String)
    (previousStatus newStatus : GameStatus) (game? : Option GameRecord) : PayoutOutcome :=
  if newStatus ≠ GameStatus.finished ∨ previousStatus = GameStatus.finished then ⟨[], none⟩
  else
    match game? with
    | none => ⟨[], none⟩
    | some game =>
      if game.escrow.status = some EscrowStatus.paid_out ∨
          game.escrow.status = some EscrowStatus.refunded then ⟨[], none⟩
      else if game.escrow.status ≠ some EscrowStatus.locked then ⟨[], none⟩
      else settleLocked sendSig game

/-- Apply the settlement escrow update to the stored game. -/
def applyEscrowWrite (g : GameRecord) : EscrowWrite → GameRecord
  | .refundWrite t1 t2 =>
    { g with escrow :=
        { g.escrow with
            status := some EscrowStatus.refunded
            player1RefundTx := t1
            player2RefundTx := t2 } }
  | .payoutWrite sig _ =>
    { g with escrow :=
        { g.escrow with
            status := some EscrowStatus.paid_out
            payoutTx := some sig } }

def applyPayoutOutcome (g : GameRecord) (o : PayoutOutcome) : GameRecord :=
  match o.escrowWrite with
  | some w => applyEscrowWrite g w
  | none => g

/-! ## Forfeit (processForfeit, index.ts lines 453-510) -/

structure ProcessForfeitData where
  gameRoomId : String
  forfeitingPlayerId : String
deriving DecidableEq, Repr

structure ForfeitResult where
  success : Bool
  error : Option String
  winner : Option String
deriving DecidableEq, Repr

structure ForfeitOutcome where
  result : ForfeitResult
  game? : Option GameRecord
deriving DecidableEq, Repr

/-- `processForfeit`. -/
def processForfeit (now : Nat) (game? : Option GameRecord)
    (data : ProcessForfeitData) : ForfeitOutcome :=
  match game? with
  | none => ⟨⟨false, some "Game not found", none⟩, none⟩
  | some game =>
    if game.status = GameStatus.finished then
      ⟨⟨false, some "Game already finished", none⟩, some game⟩
    else
      match game.player1 with
      | none =>
        -- game.player1.odid throws; the outer catch returns the message
        ⟨⟨false, some "Cannot read properties of undefined", none⟩, some game⟩
      | some p1 =>
        let winner? :=
          if p1.odid == data.forfeitingPlayerId then game.player2.map (fun p => p.odid)
          else some p1.odid
        match jsStringOpt winner? with
        | none => ⟨⟨false, some "Could not determine winner", none⟩, some game⟩
        | some winner =>
          ⟨⟨true, none, some winner⟩,
           some { game with
                    status := GameStatus.finished
                    winner := some winner
                    endedAt := some now
                    forfeitedBy := some data.forfeitingPlayerId }⟩

/-! ## Cancel matchmaking (cancelMatchmaking, index.ts lines 516-598) -/

structure CancelMatchmakingData where
  gameRoomId : String
  playerId : String
deriving DecidableEq, Repr

structure CancelResult where
  success : Bool
  error : Option String
  message : Option String
  refundSignature : Option String
deriving DecidableEq, Repr

structure CancelOutcome where
  result : CancelResult
  transfers : List Transfer
  game? : Option GameRecord
deriving DecidableEq, Repr

/-- `!deposit || deposit.amount === 0`. -/
def depositMissingOrZero : Option Deposit → Bool
  | none => true
  | some d => d.amount == 0

/-- Deposit-slot selection of `cancelMatchmaking`: the callers own slot
first, falling back to the other slot when the own slot is absent or zero. -/
def selectRefundDeposit (game : GameRecord) (playerId : String) : Option Deposit :=
  let isPlayer1 := optIsPlayer game.player1 playerId
  let deposit0 :=
    if isPlayer1 then game.escrow.player1Deposit else game.escrow.player2Deposit
  if depositMissingOrZero deposit0 then
    if isPlayer1 then game.escrow.player2Deposit else game.escrow.player1Deposit
  else deposit0

/-- `cancelMatchmaking`. -/
def cancelMatchmaking (sendSig : String → Int → String) (now : Nat)
    (game? : Option GameRecord) (data : CancelMatchmakingData) : CancelOutcome :=
  match game? with
  | none => ⟨⟨true, none, some "Game not found, nothing to refund", none⟩, [], none⟩
  | some game =>
    if game.status = GameStatus.playing ∨ game.status = GameStatus.finished then
      ⟨⟨false, some "Cannot cancel - game in progress", none, none⟩, [], some game⟩
    else
      match selectRefundDeposit game data.playerId with
      | none => ⟨⟨true, none, some "No deposit to refund", none⟩, [], some game⟩
      | some dep =>
        if dep.amount = 0 then
          ⟨⟨true, none, some "No deposit to refund", none⟩, [], some game⟩
        else
          let gameBetAmount := jsOrRat game.betAmount (1 / 100)
          let maxRefundLamports : Int := round (gameBetAmount * (LAMPORTS_PER_SOL : Rat))
          let refundAmount := min dep.amount maxRefundLamports
          let refundSignature := sendSig data.playerId refundAmount
          ⟨⟨true, none, none, some refundSignature⟩,
           [⟨data.playerId, refundAmount⟩],
           some { game with
                    status := GameStatus.cancelled
                    cancelledBy := some data.playerId
                    cancelledAt := some now
                    escrow := { game.escrow with
                                  status := some EscrowStatus.refunded
                                  refundTx := some refundSignature } }⟩

/-! ## Helper lemmas -/

theorem canFormWordGo_iff (cs : List Char) : ∀ avail : List Char,
    canFormWordGo cs avail = true ↔ ∀ c : Char, cs.count c ≤ avail.count c := by
  induction cs with
  | nil =>
    intro avail
    simp [canFormWordGo]
  | cons c cs ih =>
    intro avail
    by_cases hc : c ∈ avail
    · have hcb : avail.contains c = true := by simpa using hc
      rw [canFormWordGo, if_pos hcb, ih]
      have hcount : 0 < avail.count c := List.count_pos_iff.mpr hc
      constructor
      · intro h d
        have hd := h d
        by_cases hdc : d = c
        · subst hdc
          rw [List.count_erase_self] at hd
          rw [List.count_cons_self]
          omega
        · rw [List.count_erase_of_ne hdc] at hd
          rw [List.count_cons_of_ne hdc]
          exact hd
      · intro h d
        have hd := h d
        by_cases hdc : d = c
        · subst hdc
          rw [List.count_cons_self] at hd
          rw [List.count_erase_self]
          omega
        · rw [List.count_cons_of_ne hdc] at hd
          rw [List.count_erase_of_ne hdc]
          exact hd
    · have hcb : avail.contains c = false := by simpa using hc
      have hz : avail.count c = 0 := List.count_eq_zero.mpr hc
      rw [canFormWordGo, hcb, if_neg Bool.false_ne_true]
      constructor
      · intro h
        exact absurd h Bool.false_ne_true
      · intro h
        have hcc := h c
        rw [List.count_cons_self, hz] at hcc
        omega

/-- Settlement is a no-op outcome whenever the escrow status is terminal or
not yet locked, whatever the status-change trigger was. -/
theorem processGamePayout_noop_of_terminal_or_unlocked
    (sendSig : String → Int → String) (prev new : GameStatus) (g : GameRecord)
    (h : g.escrow.status = some EscrowStatus.paid_out ∨
         g.escrow.status = some EscrowStatus.refunded ∨
         g.escrow.status ≠ some EscrowStatus.locked) :
    processGamePayout sendSig prev new (some g) = ⟨[], none⟩ := by
  rw [processGamePayout.eq_def]
  split
  · rfl
  · rcases h with h | h | h <;> simp [h]

/-- A `settleLocked` outcome that performs no escrow write is the no-op
outcome (only a zero pot skips the write). -/
theorem settleLocked_eq_noop_of_write_none
    (sendSig : String → Int → String) (g : GameRecord)
    (h : (settleLocked sendSig g).escrowWrite = none) :
    settleLocked sendSig g = ⟨[], none⟩ := by
  simp only [settleLocked] at h ⊢
  by_cases h0 : depositAmount g.escrow.player1Deposit +
      depositAmount g.escrow.player2Deposit = 0
  · rw [if_pos h0]
  · rw [if_neg h0] at h ⊢
    rcases hw : jsStringOpt g.winner with _ | w
    · rw [hw] at h
      simp at h
    · rw [hw] at h
      simp at h

/-- A settlement outcome that performs no escrow write is the no-op
outcome. -/
theorem processGamePayout_eq_noop_of_write_none
    (sendSig : String → Int → String) (prev new : GameStatus) (game? : Option GameRecord)
    (h : (processGamePayout sendSig prev new game?).escrowWrite = none) :
    processGamePayout sendSig prev new game? = ⟨[], none⟩ := by
  simp only [processGamePayout] at h ⊢
  by_cases ht : new ≠ GameStatus.finished ∨ prev = GameStatus.finished
  · rw [if_pos ht]
  · rw [if_neg ht] at h ⊢
    rcases game? with _ | game
    · rfl
    · dsimp only at h ⊢
      by_cases hg1 : game.escrow.status = some EscrowStatus.paid_out ∨
          game.escrow.status = some EscrowStatus.refunded
      · rw [if_pos hg1]
      · rw [if_neg hg1] at h ⊢
        by_cases hg2 : game.escrow.status ≠ some EscrowStatus.locked
        · rw [if_pos hg2]
        · rw [if_neg hg2] at h ⊢
          exact settleLocked_eq_noop_of_write_none _ _ h

/-- Applying any settlement escrow write leaves the escrow in a terminal
status. -/
theorem applyEscrowWrite_terminal (g : GameRecord) (w : EscrowWrite) :
    (applyEscrowWrite g w).escrow.status = some EscrowStatus.paid_out ∨
    (applyEscrowWrite g w).escrow.status = some EscrowStatus.refunded := by
  cases w
  · right; rfl
  · left; rfl

theorem setPlayer_status (g : GameRecord) (pk : PlayerKey) (p : Option PlayerState) :
    (setPlayer g pk p).status = g.status := by
  cases pk <;> rfl

theorem setPlayer_letters (g : GameRecord) (pk : PlayerKey) (p : Option PlayerState) :
    (setPlayer g pk p).letters = g.letters := by
  cases pk <;> rfl

/-- Unpack a successful player lookup: the slot holds the record, the record
matches the caller, and a player2 hit means the player1 check failed. -/
theorem findPlayer_some_elim (g : GameRecord) (pid : String) (pk : PlayerKey)
    (pd : PlayerState) (hf : findPlayer g pid = some (pk, pd)) :
    getPlayer g pk = some pd ∧ (pd.odid == pid) = true ∧
    (pk = PlayerKey.player2 → optIsPlayer g.player1 pid = false) := by
  rw [findPlayer] at hf
  by_cases h1 : optIsPlayer g.player1 pid = true
  · rw [if_pos h1] at hf
    rcases hp1 : g.player1 with _ | p <;> rw [hp1] at hf
    · exact Option.noConfusion hf
    · obtain ⟨hpk, hpd⟩ : PlayerKey.player1 = pk ∧ p = pd := by
        simpa using hf
      subst hpk
      subst hpd
      refine ⟨by simpa [getPlayer] using hp1, ?_, by intro h; exact PlayerKey.noConfusion h⟩
      rw [hp1] at h1
      simpa [optIsPlayer] using h1
  · rw [if_neg h1] at hf
    by_cases h2 : optIsPlayer g.player2 pid = true
    · rw [if_pos h2] at hf
      rcases hp2 : g.player2 with _ | p <;> rw [hp2] at hf
      · exact Option.noConfusion hf
      · obtain ⟨hpk, hpd⟩ : PlayerKey.player2 = pk ∧ p = pd := by
          simpa using hf
        subst hpk
        subst hpd
        refine ⟨by simpa [getPlayer] using hp2, ?_, ?_⟩
        · rw [hp2] at h2
          simpa [optIsPlayer] using h2
        · intro _
          simpa using h1
    · rw [if_neg h2] at hf
      exact Option.noConfusion hf

/-- Replacing the found players record with one that keeps the same odid
makes the lookup return the replacement. -/
theorem findPlayer_setPlayer (g : GameRecord) (pid : String) (pk : PlayerKey)
    (pd pd2 : PlayerState) (hf : findPlayer g pid = some (pk, pd))
    (hodid : pd2.odid = pd.odid) :
    findPlayer (setPlayer g pk (some pd2)) pid = some (pk, pd2) := by
  obtain ⟨hget, hmatch, hfirst⟩ := findPlayer_some_elim g pid pk pd hf
  have hm2 : (pd2.odid == pid) = true := by
    rw [hodid]
    exact hmatch
  cases pk
  · rw [findPlayer]
    rw [if_pos (by simpa [setPlayer, optIsPlayer] using hm2)]
    simp [setPlayer]
  · have h1 : optIsPlayer g.player1 pid = false := hfirst rfl
    rw [findPlayer]
    rw [if_neg (by simp [setPlayer, h1]), if_pos (by simpa [setPlayer, optIsPlayer] using hm2)]
    simp [setPlayer]

/-- Inversion of a successful `submitWord` validation: every check passed,
the caller resolved to the returned slot, and the word/score are the
normalized word and its server-computed score. -/
theorem submitWordCheck_ok_elim (validWords : List String) (game? : Option GameRecord)
    (data : SubmitWordData) (game : GameRecord) (pk : PlayerKey) (pd : PlayerState)
    (w : String) (s : Nat)
    (hc : submitWordCheck validWords game? data = .ok (game, pk, pd, w, s)) :
    game? = some game ∧
    ¬ (data.gameId = "" ∨ data.playerId = "" ∨ data.word = "") ∧
    game.status = GameStatus.playing ∧
    findPlayer game data.playerId = some (pk, pd) ∧
    w = jsTrim (jsToUpper data.word) ∧
    s = calculateScore w ∧
    ¬ w.length < 3 ∧
    canFormWord w game.letters = true ∧
    validWords.contains (jsToLower w) = true ∧
    pd.wordsFound.contains w = false := by
  simp only [submitWordCheck] at hc
  by_cases h0 : data.gameId = "" ∨ data.playerId = "" ∨ data.word = ""
  · rw [if_pos h0] at hc
    exact Except.noConfusion hc
  · rw [if_neg h0] at hc
    rcases hg : game? with _ | g2 <;> rw [hg] at hc
    · exact Except.noConfusion hc
    · dsimp only at hc
      by_cases h1 : g2.status ≠ GameStatus.playing
      · rw [if_pos h1] at hc
        exact Except.noConfusion hc
      · rw [if_neg h1] at hc
        rcases hfp : findPlayer g2 data.playerId with _ | ⟨pk2, pd2⟩ <;> rw [hfp] at hc
        · exact Except.noConfusion hc
        · dsimp only at hc
          by_cases h2 : (jsTrim (jsToUpper data.word)).length < 3
          · rw [if_pos h2] at hc
            exact Except.noConfusion hc
          · rw [if_neg h2] at hc
            by_cases h3 : ¬ canFormWord (jsTrim (jsToUpper data.word)) g2.letters = true
            · rw [if_pos h3] at hc
              exact Except.noConfusion hc
            · rw [if_neg h3] at hc
              by_cases h4 : ¬ validWords.contains
                  (jsToLower (jsTrim (jsToUpper data.word))) = true
              · rw [if_pos h4] at hc
                exact Except.noConfusion hc
              · rw [if_neg h4] at hc
                by_cases h5 : pd2.wordsFound.contains (jsTrim (jsToUpper data.word)) = true
                · rw [if_pos h5] at hc
                  exact Except.noConfusion hc
                · rw [if_neg h5] at hc
                  obtain ⟨hga, hpk, hpd, hw, hs⟩ :
                      g2 = game ∧ pk2 = pk ∧ pd2 = pd ∧
                        jsTrim (jsToUpper data.word) = w ∧
                        calculateScore (jsTrim (jsToUpper data.word)) = s := by
                    simpa using hc
                  subst hga
                  subst hpk
                  subst hpd
                  subst hw
                  subst hs
                  exact ⟨rfl, h0, not_not.mp h1, hfp, rfl, rfl, h2, not_not.mp h3,
                    not_not.mp h4, by simpa using h5⟩

/-! ## Claim theorems -/

/-- Claim C1: the settlement handler is a no-op (no transfers, no escrow
write) whenever the escrow status is already `paid_out` or `refunded`, or is
not `locked`; consequently running settlement twice in a row for the same
status-change trigger records exactly one set of transfers, the second run
being a no-op. -/
theorem processGamePayout_settlement_idempotent (sendSig : String → Int → String)
    (previousStatus newStatus : GameStatus) (g : GameRecord) :
    ((g.escrow.status = some EscrowStatus.paid_out ∨
        g.escrow.status = some EscrowStatus.refunded ∨
        g.escrow.status ≠ some EscrowStatus.locked) →
       processGamePayout sendSig previousStatus GameStatus.finished (some g) = ⟨[], none⟩) ∧
    (processGamePayout sendSig previousStatus newStatus
        (some (applyPayoutOutcome g
          (processGamePayout sendSig previousStatus newStatus (some g)))) = ⟨[], none⟩) ∧
    ((processGamePayout sendSig previousStatus newStatus (some g)).transfers ++
       (processGamePayout sendSig previousStatus newStatus
         (some (applyPayoutOutcome g
           (processGamePayout sendSig previousStatus newStatus (some g))))).transfers =
      (processGamePayout sendSig previousStatus newStatus (some g)).transfers) := by
  have h2 : processGamePayout sendSig previousStatus newStatus
      (some (applyPayoutOutcome g
        (processGamePayout sendSig previousStatus newStatus (some g)))) = ⟨[], none⟩ := by
    cases hw : (processGamePayout sendSig previousStatus newStatus (some g)).escrowWrite with
    | none =>
      have happ : applyPayoutOutcome g
          (processGamePayout sendSig previousStatus newStatus (some g)) = g := by
        rw [applyPayoutOutcome, hw]
      rw [happ]
      exact processGamePayout_eq_noop_of_write_none _ _ _ _ hw
    | some w =>
      have happ : applyPayoutOutcome g
          (processGamePayout sendSig previousStatus newStatus (some g)) =
          applyEscrowWrite g w := by
        rw [applyPayoutOutcome, hw]
      rw [happ]
      refine processGamePayout_noop_of_terminal_or_unlocked _ _ _ _ ?_
      rcases applyEscrowWrite_terminal g w with h | h
      · exact Or.inl h
      · exact Or.inr (Or.inl h)
  exact ⟨fun h => processGamePayout_noop_of_terminal_or_unlocked _ _ _ _ h, h2,
    by rw [h2]; simp⟩

/-- Fixture for the claim C1 witness: a finished game whose escrow was
already paid out. -/
def gameC1 : GameRecord :=
  { status := GameStatus.finished
    letters := []
    betAmount := 1 / 100
    betCurrency := some "SOL"
    player1 := some ⟨"alice", 0, [], 0⟩
    player2 := some ⟨"bob", 0, [], 0⟩
    winner := some "alice"
    forfeitedBy := none
    cancelledBy := none
    cancelledAt := none
    endedAt := some 9
    escrow := ⟨some EscrowStatus.paid_out, some ⟨"s1", 30, "SOL", 0⟩,
      some ⟨"s2", 50, "SOL", 0⟩, some "payout-sig", none, none, none⟩ }

/-- Witness for claim C1: settlement on an already paid-out game performs no
transfers and writes nothing. -/
theorem processGamePayout_settlement_idempotent_witness :
    processGamePayout (fun _ _ => "sig") GameStatus.playing GameStatus.finished
      (some gameC1) = ⟨[], none⟩ :=
  (processGamePayout_settlement_idempotent (fun _ _ => "sig") GameStatus.playing
    GameStatus.finished gameC1).1 (Or.inl rfl)

/-- Claim C2: for a finished tie (winner unset) with escrow locked and both
deposits positive, settlement issues two independent transfers returning to
each player exactly their own recorded deposit amount (not an equal split),
and records both refund signatures. -/
theorem tie_refunds_each_own_deposit (sendSig : String → Int → String)
    (prev : GameStatus) (g : GameRecord) (p1 p2 : PlayerState) (d1 d2 : Deposit)
    (hprev : prev ≠ GameStatus.finished)
    (h1 : g.player1 = some p1) (h2 : g.player2 = some p2)
    (hw : g.winner = none) (hl : g.escrow.status = some EscrowStatus.locked)
    (hd1 : g.escrow.player1Deposit = some d1) (hd2 : g.escrow.player2Deposit = some d2)
    (ha1 : 0 < d1.amount) (ha2 : 0 < d2.amount) :
    processGamePayout sendSig prev GameStatus.finished (some g) =
      ⟨[⟨p1.odid, d1.amount⟩, ⟨p2.odid, d2.amount⟩],
       some (EscrowWrite.refundWrite (some (sendSig p1.odid d1.amount))
         (some (sendSig p2.odid d2.amount)))⟩ := by
  have hpot : ¬ (d1.amount + d2.amount = 0) := by omega
  simp [processGamePayout, settleLocked, hprev, hl, hw, h1, h2, hd1, hd2,
    depositAmount, jsStringOpt, hpot, ha1, ha2]

/-- Fixture for the claim C2 witness: a locked tie game with unequal
deposits of 30 and 50 lamports. -/
def gameC2 : GameRecord :=
  { status := GameStatus.finished
    letters := []
    betAmount := 1 / 100
    betCurrency := some "SOL"
    player1 := some ⟨"alice", 0, [], 0⟩
    player2 := some ⟨"bob", 0, [], 0⟩
    winner := none
    forfeitedBy := none
    cancelledBy := none
    cancelledAt := none
    endedAt := some 9
    escrow := ⟨some EscrowStatus.locked, some ⟨"s1", 30, "SOL", 0⟩,
      some ⟨"s2", 50, "SOL", 0⟩, none, none, none, none⟩ }

/-- Witness for claim C2: with deposits 30 and 50, the tie refunds are 30 to
alice and 50 to bob — each their own deposit, not an equal split of 80. -/
theorem tie_refunds_each_own_deposit_witness :
    processGamePayout (fun _ _ => "tx") GameStatus.playing GameStatus.finished
      (some gameC2) =
      ⟨[⟨"alice", 30⟩, ⟨"bob", 50⟩],
       some (EscrowWrite.refundWrite (some "tx") (some "tx"))⟩ :=
  tie_refunds_each_own_deposit (fun _ _ => "tx") GameStatus.playing gameC2
    ⟨"alice", 0, [], 0⟩ ⟨"bob", 0, [], 0⟩ ⟨"s1", 30, "SOL", 0⟩ ⟨"s2", 50, "SOL", 0⟩
    (by decide) rfl rfl rfl rfl rfl rfl (by decide) (by decide)

/-- Claim C3: the outcome of `verifyDeposit` is computed solely from the
stored game record; two calls identical except for the client-supplied
`expectedAmount` field return the same result and state, so the required
deposit amount always comes from the game record and cannot be reduced by
claiming a smaller `expectedAmount`. -/
theorem verifyDeposit_ignores_expectedAmount (env : VerifyEnv)
    (gameRoomId playerId txSignature currency : String) (a1 a2 : Option Rat) :
    verifyDeposit env ⟨gameRoomId, playerId, txSignature, a1, currency⟩ =
      verifyDeposit env ⟨gameRoomId, playerId, txSignature, a2, currency⟩ := rfl

/-- Fixture for claim C8: a playing game whose letter pool is
`[T, E, S, T, A]`. -/
def gameC8 : GameRecord :=
  { status := GameStatus.playing
    letters := ['T', 'E', 'S', 'T', 'A']
    betAmount := 1 / 100
    betCurrency := some "SOL"
    player1 := some ⟨"alice", 0, [], 0⟩
    player2 := some ⟨"bob", 0, [], 0⟩
    winner := none
    forfeitedBy := none
    cancelledBy := none
    cancelledAt := none
    endedAt := none
    escrow := ⟨some EscrowStatus.locked, none, none, none, none, none, none⟩ }

/-- Claim C8: `submitWord` accepts a word only if its letters form a
sub-multiset of the fixed pool (`canFormWord` succeeds iff every letter of
the uppercased word occurs at most as often as in the pool), and with the
pool `[T, E, S, T, A]` the word TEST is accepted while TESTS is rejected for
not being formable. -/
theorem submitWord_requires_submultiset :
    (∀ (word : String) (pool : List Char),
        canFormWord word pool = true ↔
          ∀ c : Char, (jsToUpper word).data.count c ≤ pool.count c) ∧
    (submitWord ["test", "tests"] 0 (some gameC8) ⟨"g1", "alice", "TEST"⟩).1.success = true ∧
    (submitWord ["test", "tests"] 0 (some gameC8) ⟨"g1", "alice", "TESTS"⟩).1 =
      ⟨false, some "Word cannot be formed from available letters", none, none⟩ := by
  refine ⟨fun word pool => canFormWordGo_iff (jsToUpper word).data pool, by decide, by decide⟩

/-- Witness for claim C8 at a concrete input: the pool `[T, E, S, T, A]`
dominates the letter counts of TEST. -/
theorem submitWord_requires_submultiset_witness :
    ∀ c : Char, (jsToUpper "TEST").data.count c ≤ ['T', 'E', 'S', 'T', 'A'].count c :=
  (submitWord_requires_submultiset.1 "TEST" ['T', 'E', 'S', 'T', 'A']).mp (by decide)

/-- Claim C10: `processForfeit` rejects a forfeit only when the game is
already finished; in every other status (waiting, playing, cancelled) it
accepts whenever the opponent slot yields a (truthy) winner identifier,
finishing the game with `winner` set to the opponent and `forfeitedBy` to
the forfeiting player.  The player1 slot must be present, as the handler
dereferences it unconditionally. -/
theorem forfeit_any_unfinished_status (now : Nat) (g : GameRecord)
    (data : ProcessForfeitData) (p1 : PlayerState) (h1 : g.player1 = some p1) :
    (g.status = GameStatus.finished →
       processForfeit now (some g) data =
         ⟨⟨false, some "Game already finished", none⟩, some g⟩) ∧
    (g.status ≠ GameStatus.finished →
       ∀ w, jsStringOpt (if p1.odid == data.forfeitingPlayerId
               then g.player2.map (fun p => p.odid)
               else some p1.odid) = some w →
         processForfeit now (some g) data =
           ⟨⟨true, none, some w⟩,
            some { g with
                     status := GameStatus.finished
                     winner := some w
                     endedAt := some now
                     forfeitedBy := some data.forfeitingPlayerId }⟩) := by
  constructor
  · intro hf
    simp [processForfeit, hf]
  · intro hf w hw
    simp only [beq_iff_eq] at hw
    simp [processForfeit, hf, h1, hw]

/-- Fixture for the claim C10 witness: a cancelled game with both players
present. -/
def gameC10 : GameRecord :=
  { status := GameStatus.cancelled
    letters := []
    betAmount := 1 / 100
    betCurrency := some "SOL"
    player1 := some ⟨"alice", 0, [], 0⟩
    player2 := some ⟨"bob", 0, [], 0⟩
    winner := none
    forfeitedBy := none
    cancelledBy := none
    cancelledAt := none
    endedAt := none
    escrow := ⟨some EscrowStatus.pending_deposits, none, none, none, none, none, none⟩ }

/-- Witness for claim C10: forfeiting a cancelled (not finished) game is
accepted and makes the opponent the winner. -/
theorem forfeit_any_unfinished_status_witness :
    processForfeit 7 (some gameC10) ⟨"g1", "alice"⟩ =
      ⟨⟨true, none, some "bob"⟩,
       some { gameC10 with
                status := GameStatus.finished
                winner := some "bob"
                endedAt := some 7
                forfeitedBy := some "alice" }⟩ :=
  (forfeit_any_unfinished_status 7 gameC10 ⟨"g1", "alice"⟩ ⟨"alice", 0, [], 0⟩ rfl).2
    (by decide) "bob" (by decide)

/-- Claim C9: in `cancelMatchmaking`, when the calling players own deposit
slot is absent or zero, the handler falls back to the other slot; if that
slot holds a positive amount the refund transfer goes to the *calling*
players address for that amount, capped at the games bet amount in
lamports. -/
theorem cancel_falls_back_to_other_slot (sendSig : String → Int → String) (now : Nat)
    (g : GameRecord) (data : CancelMatchmakingData) (d : Deposit)
    (hst : g.status ≠ GameStatus.playing ∧ g.status ≠ GameStatus.finished)
    (hown : depositMissingOrZero (if optIsPlayer g.player1 data.playerId
              then g.escrow.player1Deposit else g.escrow.player2Deposit) = true)
    (hother : (if optIsPlayer g.player1 data.playerId
              then g.escrow.player2Deposit else g.escrow.player1Deposit) = some d)
    (hpos : 0 < d.amount) :
    (cancelMatchmaking sendSig now (some g) data).result.success = true ∧
    (cancelMatchmaking sendSig now (some g) data).transfers =
      [⟨data.playerId,
        min d.amount (round (jsOrRat g.betAmount (1 / 100) * (LAMPORTS_PER_SOL : Rat)))⟩] := by
  have hsel : selectRefundDeposit g data.playerId = some d := by
    rw [selectRefundDeposit]
    simp only [hown, if_true]
    exact hother
  have hnz : ¬ d.amount = 0 := by omega
  constructor <;>
    simp [cancelMatchmaking, hst.1, hst.2, hsel, hnz]

/-- Fixture for the claim C9 witness: caller alice is player1 with an empty
own deposit slot while the player2 slot holds 7 lamports. -/
def gameC9 : GameRecord :=
  { status := GameStatus.waiting
    letters := []
    betAmount := 1 / 100
    betCurrency := some "SOL"
    player1 := some ⟨"alice", 0, [], 0⟩
    player2 := some ⟨"bob", 0, [], 0⟩
    winner := none
    forfeitedBy := none
    cancelledBy := none
    cancelledAt := none
    endedAt := none
    escrow := ⟨some EscrowStatus.pending_deposits, none,
      some ⟨"sig2", 7, "SOL", 0⟩, none, none, none, none⟩ }

/-- Witness for claim C9: alice, whose own slot is empty, is refunded the 7
lamports recorded in the opponents slot. -/
theorem cancel_falls_back_to_other_slot_witness :
    (cancelMatchmaking (fun _ _ => "refund-sig") 3 (some gameC9) ⟨"g1", "alice"⟩).result.success
        = true ∧
    (cancelMatchmaking (fun _ _ => "refund-sig") 3 (some gameC9) ⟨"g1", "alice"⟩).transfers =
      [⟨"alice",
        min 7 (round (jsOrRat gameC9.betAmount (1 / 100) * (LAMPORTS_PER_SOL : Rat)))⟩] := by
  have h := cancel_falls_back_to_other_slot (fun _ _ => "refund-sig") 3 gameC9
    ⟨"g1", "alice"⟩ ⟨"sig2", 7, "SOL", 0⟩ (by decide) (by decide) (by decide) (by decide)
  exact ⟨h.1, h.2⟩

/-- Fixture for the claim C6 counterexample: a game whose status is already
`cancelled` (so not `waiting`), with a recorded deposit of 7 lamports. -/
def gameC6 : GameRecord :=
  { status := GameStatus.cancelled
    letters := []
    betAmount := 1 / 100
    betCurrency := some "SOL"
    player1 := some ⟨"alice", 0, [], 0⟩
    player2 := some ⟨"bob", 0, [], 0⟩
    winner := none
    forfeitedBy := none
    cancelledBy := some "alice"
    cancelledAt := some 1
    endedAt := none
    escrow := ⟨some EscrowStatus.refunded, some ⟨"sig1", 7, "SOL", 0⟩,
      none, none, none, none, none⟩ }

/-- Counterexample to claim C6 as stated: `cancelMatchmaking` also succeeds,
and issues a refund transfer, on a game whose status is `cancelled` — not
only while the status is `waiting`.  (The code only rejects `playing` and
`finished`.) -/
theorem cancelMatchmaking_succeeds_on_cancelled_game :
    gameC6.status = GameStatus.cancelled ∧
    gameC6.status ≠ GameStatus.waiting ∧
    (cancelMatchmaking (fun _ _ => "refund-sig") 2 (some gameC6)
        ⟨"g1", "alice"⟩).result.success = true ∧
    (cancelMatchmaking (fun _ _ => "refund-sig") 2 (some gameC6)
        ⟨"g1", "alice"⟩).transfers ≠ [] := by
  exact ⟨rfl, by decide, by decide, by decide⟩

/-- Claim C6, amended: `cancelMatchmaking` is rejected with the
"game in progress" error exactly when the status is `playing` or `finished`;
in every other status (`waiting`, and also `cancelled`) it proceeds, and
when it refunds a recorded deposit the refunded amount is
`min(depositAmount, round(betAmount in lamports))` — never more than the
bet-amount cap. -/
theorem cancelMatchmaking_guard_and_refund_cap (sendSig : String → Int → String)
    (now : Nat) (g : GameRecord) (data : CancelMatchmakingData) :
    (g.status = GameStatus.playing ∨ g.status = GameStatus.finished →
       cancelMatchmaking sendSig now (some g) data =
         ⟨⟨false, some "Cannot cancel - game in progress", none, none⟩, [], some g⟩) ∧
    (¬ (g.status = GameStatus.playing ∨ g.status = GameStatus.finished) →
       ∀ d : Deposit, selectRefundDeposit g data.playerId = some d → d.amount ≠ 0 →
         (cancelMatchmaking sendSig now (some g) data).result.success = true ∧
         (cancelMatchmaking sendSig now (some g) data).transfers =
           [⟨data.playerId,
             min d.amount
               (round (jsOrRat g.betAmount (1 / 100) * (LAMPORTS_PER_SOL : Rat)))⟩]) ∧
    (∀ t ∈ (cancelMatchmaking sendSig now (some g) data).transfers,
       t.lamports ≤ round (jsOrRat g.betAmount (1 / 100) * (LAMPORTS_PER_SOL : Rat))) := by
  refine ⟨fun hs => ?_, fun hs d hd hnz => ?_, ?_⟩
  · simp [cancelMatchmaking, hs]
  · constructor <;> simp [cancelMatchmaking, hs, hd, hnz]
  · intro t ht
    rw [cancelMatchmaking] at ht
    by_cases hs : g.status = GameStatus.playing ∨ g.status = GameStatus.finished
    · simp [hs] at ht
    · simp only [if_neg hs] at ht
      rcases hsel : selectRefundDeposit g data.playerId with _ | d
      · rw [hsel] at ht
        simp at ht
      · rw [hsel] at ht
        by_cases hz : d.amount = 0
        · simp [hz] at ht
        · simp only [if_neg hz] at ht
          simp only [List.mem_singleton] at ht
          subst ht
          exact min_le_right _ _

/-- Fixture for the claim C6 witness: a waiting game with a recorded
7-lamport deposit in the player1 slot. -/
def gameC6w : GameRecord :=
  { status := GameStatus.waiting
    letters := []
    betAmount := 1 / 100
    betCurrency := some "SOL"
    player1 := some ⟨"alice", 0, [], 0⟩
    player2 := none
    winner := none
    forfeitedBy := none
    cancelledBy := none
    cancelledAt := none
    endedAt := none
    escrow := ⟨some EscrowStatus.pending_deposits, some ⟨"s1", 7, "SOL", 0⟩,
      none, none, none, none, none⟩ }

/-- Witness for the amended claim C6: cancelling a waiting game with a
recorded partial deposit succeeds. -/
theorem cancelMatchmaking_guard_and_refund_cap_witness :
    (cancelMatchmaking (fun _ _ => "sig") 0 (some gameC6w)
      ⟨"g1", "alice"⟩).result.success = true :=
  ((cancelMatchmaking_guard_and_refund_cap (fun _ _ => "sig") 0 gameC6w
      ⟨"g1", "alice"⟩).2.1 (by decide) ⟨"s1", 7, "SOL", 0⟩ (by decide) (by decide)).1

/-- With a signature that is already recorded, the validation sequence can
never reach the accepting branch. -/
theorem verifyDepositCheck_not_ok_of_used (env : VerifyEnv) (data : VerifyDepositData)
    (hused : env.usedSigs.contains data.txSignature = true) :
    ∀ game amt, verifyDepositCheck env data ≠ .ok (game, amt) := by
  intro game amt hc
  simp only [verifyDepositCheck] at hc
  rcases hgame : env.game? with _ | g2 <;> rw [hgame] at hc
  · exact Except.noConfusion hc
  · dsimp only at hc
    by_cases h1 : ¬ (optIsPlayer g2.player1 data.playerId = true ∨
        optIsPlayer g2.player2 data.playerId = true)
    · rw [if_pos h1] at hc
      exact Except.noConfusion hc
    · rw [if_neg h1] at hc
      by_cases h2 : data.currency ≠ jsOrString g2.betCurrency "SOL"
      · rw [if_pos h2] at hc
        exact Except.noConfusion hc
      · rw [if_neg h2] at hc
        rw [if_pos hused] at hc
        exact Except.noConfusion hc

/-- Claim C4: a transaction signature already present in the used-signature
store is rejected by every later `verifyDeposit` call — whatever game or
player presents it — so it is never claimed again; when the preliminary
game/player/currency checks pass, the rejection carries exactly the
signature-already-used error. -/
theorem used_signature_always_rejected (env : VerifyEnv) (data : VerifyDepositData)
    (hused : env.usedSigs.contains data.txSignature = true) :
    (verifyDeposit env data).result.success = false ∧
    (verifyDeposit env data).usedSigs = env.usedSigs ∧
    (∀ game, env.game? = some game →
       (optIsPlayer game.player1 data.playerId = true ∨
        optIsPlayer game.player2 data.playerId = true) →
       data.currency = jsOrString game.betCurrency "SOL" →
       (verifyDeposit env data).result.error =
         some "Transaction has already been used for a deposit") := by
  refine ⟨?_, ?_, ?_⟩
  · rcases hc : verifyDepositCheck env data with e | ⟨game, amt⟩
    · simp only [verifyDeposit]
      rw [hc]
    · exact absurd hc (verifyDepositCheck_not_ok_of_used env data hused game amt)
  · rcases hc : verifyDepositCheck env data with e | ⟨game, amt⟩
    · simp only [verifyDeposit]
      rw [hc]
    · exact absurd hc (verifyDepositCheck_not_ok_of_used env data hused game amt)
  · intro game hg hp hcur
    have hc2 : verifyDepositCheck env data =
        .error "Transaction has already been used for a deposit" := by
      simp only [verifyDepositCheck]
      rw [hg]
      dsimp only
      rw [if_neg (not_not_intro hp), if_neg (not_not_intro hcur), if_pos hused]
    simp only [verifyDeposit]
    rw [hc2]

/-- Fixture for the claim C4 witness: a pending game between alice and bob. -/
def gameC4 : GameRecord :=
  { status := GameStatus.waiting
    letters := []
    betAmount := 1 / 100
    betCurrency := some "SOL"
    player1 := some ⟨"alice", 0, [], 0⟩
    player2 := some ⟨"bob", 0, [], 0⟩
    winner := none
    forfeitedBy := none
    cancelledBy := none
    cancelledAt := none
    endedAt := none
    escrow := ⟨some EscrowStatus.pending_deposits, none, none, none, none, none, none⟩ }

/-- Witness for claim C4: presenting the already-consumed signature sig-used
is rejected with the signature-already-used error. -/
theorem used_signature_always_rejected_witness :
    (verifyDeposit ⟨some gameC4, ["sig-used"], fun _ => none, "escrow-wallet", 0⟩
       ⟨"g1", "alice", "sig-used", none, "SOL"⟩).result.success = false ∧
    (verifyDeposit ⟨some gameC4, ["sig-used"], fun _ => none, "escrow-wallet", 0⟩
       ⟨"g1", "alice", "sig-used", none, "SOL"⟩).result.error =
      some "Transaction has already been used for a deposit" := by
  have h := used_signature_always_rejected
    ⟨some gameC4, ["sig-used"], fun _ => none, "escrow-wallet", 0⟩
    ⟨"g1", "alice", "sig-used", none, "SOL"⟩ (by decide)
  exact ⟨h.1, h.2.2 gameC4 rfl (by decide) (by decide)⟩

/-- Claim C7: a rejected `verifyDeposit` call writes no state — the
used-signature store and the game node (hence the per-player deposit and the
escrow status) are exactly as before the call. -/
theorem rejection_writes_no_state (env : VerifyEnv) (data : VerifyDepositData)
    (h : (verifyDeposit env data).result.success = false) :
    (verifyDeposit env data).usedSigs = env.usedSigs ∧
    (verifyDeposit env data).game? = env.game? := by
  rcases hc : verifyDepositCheck env data with e | ⟨game, amt⟩
  · simp only [verifyDeposit]
    rw [hc]
    exact ⟨rfl, rfl⟩
  · simp only [verifyDeposit] at h
    rw [hc] at h
    simp at h

/-- Fixture for the claim C7 witness: there is no game node, so the call is
rejected. -/
def envC7 : VerifyEnv :=
  ⟨none, ["old-sig"], fun _ => none, "escrow-wallet", 0⟩

/-- Witness for claim C7: a rejection (unknown game) leaves the
used-signature store and the game node unchanged. -/
theorem rejection_writes_no_state_witness :
    (verifyDeposit envC7 ⟨"g9", "alice", "sig-x", none, "SOL"⟩).usedSigs = envC7.usedSigs ∧
    (verifyDeposit envC7 ⟨"g9", "alice", "sig-x", none, "SOL"⟩).game? = envC7.game? :=
  rejection_writes_no_state envC7 ⟨"g9", "alice", "sig-x", none, "SOL"⟩ (by decide)

/-- Claim C5: submitting the same valid word twice for one player credits
the score exactly once — the transactional update is a no-op when the word
is already in `wordsFound`, and after a successful submission the identical
resubmission is rejected as a duplicate leaving the stored game unchanged;
the word is appended exactly once and its points added exactly once. -/
theorem duplicate_word_scored_once (validWords : List String) (now now2 : Nat)
    (g : GameRecord) (data : SubmitWordData) :
    (∀ (w : String) (s : Nat) (d : PlayerState), d.wordsFound.contains w = true →
        submitWordTxn now w s (some d) = some d) ∧
    ((submitWord validWords now (some g) data).1.success = true →
       submitWord validWords now2 ((submitWord validWords now (some g) data).2) data =
         (⟨false, some "Word already submitted", none, none⟩,
          (submitWord validWords now (some g) data).2) ∧
       ∃ pk pd, findPlayer g data.playerId = some (pk, pd) ∧
         pd.wordsFound.count (jsTrim (jsToUpper data.word)) = 0 ∧
         (submitWord validWords now (some g) data).2 =
           some (setPlayer g pk (some
             { pd with
                 score := pd.score + calculateScore (jsTrim (jsToUpper data.word))
                 wordsFound := pd.wordsFound ++ [jsTrim (jsToUpper data.word)]
                 lastActivity := now })) ∧
         (pd.wordsFound ++ [jsTrim (jsToUpper data.word)]).count
           (jsTrim (jsToUpper data.word)) = 1) := by
  constructor
  · intro w s d hd
    have hmem : w ∈ d.wordsFound := by simpa using hd
    simp [submitWordTxn, hmem]
  · intro hsucc
    rcases hc : submitWordCheck validWords (some g) data with e | ⟨game, pk, pd, w, s⟩
    · simp only [submitWord] at hsucc
      rw [hc] at hsucc
      simp at hsucc
    · obtain ⟨hgame, hfields, hstatus, hfind, hw, hs, hlen, hform, hdict, hdup⟩ :=
        submitWordCheck_ok_elim validWords (some g) data game pk pd w s hc
      have hgg : g = game := by simpa using hgame
      subst hgg
      subst hw
      subst hs
      set norm := jsTrim (jsToUpper data.word) with hnormdef
      set pdNew : PlayerState :=
        { pd with
            score := pd.score + calculateScore norm
            wordsFound := pd.wordsFound ++ [norm]
            lastActivity := now } with hpdNew
      have hget : getPlayer g pk = some pd :=
        (findPlayer_some_elim g data.playerId pk pd hfind).1
      have hmem : norm ∉ pd.wordsFound := by simpa using hdup
      have htxn : submitWordTxn now norm (calculateScore norm) (getPlayer g pk) =
          some pdNew := by
        rw [hget]
        simp only [submitWordTxn]
        rw [if_neg (by simp [hmem])]
      have hg1 : (submitWord validWords now (some g) data).2 =
          some (setPlayer g pk (some pdNew)) := by
        simp only [submitWord]
        rw [hc]
        dsimp only
        rw [htxn]
      have hfind2 : findPlayer (setPlayer g pk (some pdNew)) data.playerId =
          some (pk, pdNew) :=
        findPlayer_setPlayer g data.playerId pk pd pdNew hfind rfl
      have hcontains2 : pdNew.wordsFound.contains norm = true := by
        simp [hpdNew]
      have hcheck2 : submitWordCheck validWords (some (setPlayer g pk (some pdNew))) data =
          .error "Word already submitted" := by
        simp only [submitWordCheck]
        rw [if_neg hfields]
        rw [setPlayer_status]
        rw [if_neg (not_not_intro hstatus)]
        rw [hfind2]
        dsimp only
        rw [if_neg hlen]
        rw [setPlayer_letters]
        rw [if_neg (not_not_intro hform)]
        rw [if_neg (not_not_intro hdict)]
        rw [if_pos hcontains2]
      refine ⟨?_, pk, pd, hfind, List.count_eq_zero.mpr hmem, hg1, ?_⟩
      · rw [hg1]
        simp only [submitWord]
        rw [hcheck2]
      · rw [List.count_append, List.count_eq_zero.mpr hmem]
        simp

/-- Fixture for the claim C5 witness: a playing game whose pool can form the
word TEST. -/
def gameC5 : GameRecord :=
  { status := GameStatus.playing
    letters := ['T', 'E', 'S', 'T']
    betAmount := 1 / 100
    betCurrency := some "SOL"
    player1 := some ⟨"alice", 0, [], 0⟩
    player2 := some ⟨"bob", 0, [], 0⟩
    winner := none
    forfeitedBy := none
    cancelledBy := none
    cancelledAt := none
    endedAt := none
    escrow := ⟨some EscrowStatus.locked, none, none, none, none, none, none⟩ }

/-- Witness for claim C5: after alice successfully submits "test", the
identical resubmission is rejected as a duplicate and leaves the stored
game unchanged. -/
theorem duplicate_word_scored_once_witness :
    submitWord ["test"] 6 ((submitWord ["test"] 5 (some gameC5)
        ⟨"g1", "alice", "test"⟩).2) ⟨"g1", "alice", "test"⟩ =
      (⟨false, some "Word already submitted", none, none⟩,
       (submitWord ["test"] 5 (some gameC5) ⟨"g1", "alice", "test"⟩).2) :=
  ((duplicate_word_scored_once ["test"] 5 6 gameC5 ⟨"g1", "alice", "test"⟩).2
    (by decide)).1

end WordDuel
